import Mathlib

/-!
Shallow embedding of the MiniTrello realtime synchronization core
(`src/backend/websocket/socketHandlers.js`, `src/backend/middleware/socketAuth.js`,
the board-delete route of the Express server file) together with the
position-allocation rule documented for the client, and proofs of the
specification claims about them.

The Prisma-backed Entity Store is modelled as in-memory lists of rows; each
Prisma call used by the handlers (`card.update`, `list.findUnique`,
`activity.create`, `comment.create`, `card.deleteMany`, …) is modelled as a
function on that store, returning `Option` where the call can throw
(`P2025` on a missing row for `update`/`delete`, foreign-key violations on
`create`).  Socket.IO emissions are modelled as an explicit list of `Emit`
values: `socket.to(room).emit(...)` becomes a room-scoped emission that is
delivered to every connection in the room other than the sender, and
`socket.emit(...)` becomes a self-scoped emission delivered only to the
originating connection.
-/

namespace MiniTrello

/-- The identity attached to an authenticated socket.  `socketAuth.js` sets
`socket.user = { id: decoded.userId }` after verifying the JWT. -/
structure User where
  uid : Nat
deriving DecidableEq, Repr

/-- A Card row: `Card(id, title, description?, position float, listId → List,
boardId → Board, dueDate?)`.  Only the fields the realtime core reads or
writes are modelled. -/
structure Card where
  cid : Nat
  listId : Nat
  boardId : Nat
  position : ℚ
  title : String
deriving DecidableEq, Repr

/-- A List row (named `BoardList` here because `List` is taken in Lean):
`List(id, title, position float, boardId → Board)`. -/
structure BoardList where
  lid : Nat
  boardId : Nat
  title : String
deriving DecidableEq, Repr

/-- A Comment row: `Comment(id, text, cardId → Card, authorId → User)`. -/
structure Comment where
  coid : Nat
  cardId : Nat
  authorId : Nat
  text : String
deriving DecidableEq, Repr

/-- The `data` JSON written by the `card-moved` activity logger:
`{ cardTitle, fromList, toList }`. -/
structure ActivityData where
  cardTitle : String
  fromList : String
  toList : String
deriving DecidableEq, Repr

/-- An Activity row: `Activity(id, type, data JSON, boardId → Board,
userId → User)`. -/
structure Activity where
  aid : Nat
  type : String
  boardId : Nat
  userId : Nat
  data : ActivityData
deriving DecidableEq, Repr

/-- A Board row, restricted to the fields the modelled routes consult. -/
structure Board where
  bid : Nat
  ownerId : Nat
deriving DecidableEq, Repr

/-- A BoardMember row linking a user to a board. -/
structure BoardMember where
  boardId : Nat
  userId : Nat
deriving DecidableEq, Repr

/-- The Entity Store: the Prisma-managed tables the modelled handlers touch,
plus a fresh-id counter for created rows.  `users` holds the ids of existing
User rows (only existence matters for foreign-key checks). -/
structure Store where
  users : List Nat
  boards : List Board
  boardMembers : List BoardMember
  lists : List BoardList
  cards : List Card
  comments : List Comment
  activities : List Activity
  nextId : Nat
deriving DecidableEq, Repr

/-- Model of `prisma.card.update({ where: { id: cardId }, data: { listId:
toListId, position: newPosition } })`: updates the matching row and returns
it; a missing row makes Prisma throw `P2025`, modelled as `none`. -/
def cardUpdateMove (s : Store) (cardId toListId : Nat) (newPosition : ℚ) :
    Option (Store × Card) :=
  match s.cards.find? (fun c => c.cid == cardId) with
  | none => none
  | some c =>
    let c2 : Card := { c with listId := toListId, position := newPosition }
    some ({ s with cards :=
              s.cards.map (fun d => if d.cid == cardId then c2 else d) }, c2)

/-- Model of `prisma.list.findUnique({ where: { id } })`: `null` on a missing
row, not an error. -/
def listFindUnique (s : Store) (id : Nat) : Option BoardList :=
  s.lists.find? (fun l => l.lid == id)

/-- Model of `prisma.activity.create`: appends one Activity row; a
foreign-key violation (missing board or user) makes Prisma throw, modelled
as `none`. -/
def activityCreate (s : Store) (type : String) (boardId userId : Nat)
    (d : ActivityData) : Option Store :=
  if s.boards.any (fun b => b.bid == boardId) && s.users.contains userId then
    some { s with
      activities := s.activities ++ [⟨s.nextId, type, boardId, userId, d⟩],
      nextId := s.nextId + 1 }
  else none

/-- Model of `prisma.comment.create`: appends one Comment row and returns
it; a foreign-key violation (missing card or author) makes Prisma throw,
modelled as `none`. -/
def commentCreate (s : Store) (cardId : Nat) (text : String)
    (authorId : Nat) : Option (Store × Comment) :=
  if s.cards.any (fun c => c.cid == cardId) && s.users.contains authorId then
    let c : Comment := ⟨s.nextId, cardId, authorId, text⟩
    some ({ s with comments := s.comments ++ [c], nextId := s.nextId + 1 }, c)
  else none

/-- The Socket.IO room name for a board: `board:${boardId}`. -/
def boardRoom (boardId : Nat) : String :=
  "board:" ++ toString boardId

/-- One server-side emission.  The `room*` constructors model
`socket.to(room).emit(...)`, delivered to every member of the room other
than the sender; `selfError` models `socket.emit('error', { message })`,
delivered only to the originating connection. -/
inductive Emit where
  | roomUserJoined (room : String) (userId : Nat)
  | roomUserLeft (room : String) (userId : Nat)
  | roomCardMoved (room : String) (card : Card) (movedById : Nat)
  | roomNewComment (room : String) (comment : Comment) (addedById : Nat)
  | roomUserTyping (room : String) (userId cardId : Nat) (isTyping : Bool)
  | selfError (message : String)
deriving DecidableEq, Repr

/-- True for the emissions that are errors sent back to the originator. -/
def Emit.isError : Emit → Bool
  | .selfError _ => true
  | _ => false

/-- True for the `user-left` room emissions. -/
def Emit.isUserLeft : Emit → Bool
  | .roomUserLeft _ _ => true
  | _ => false

/-- True for the room-scoped (broadcast) emissions. -/
def Emit.isBroadcast : Emit → Bool
  | .selfError _ => false
  | _ => true

/-- A live socket connection: its socket id, the authenticated user, and the
set of rooms it has joined. -/
structure Conn where
  sid : Nat
  user : User
  rooms : List String
deriving DecidableEq, Repr

/-- Delivery semantics of one emission: a room-scoped emission reaches a
connection iff that connection is in the room and is not the sender; a
`selfError` reaches only the sender. -/
def deliveredTo (sender recipient : Conn) : Emit → Bool
  | .roomUserJoined room _ =>
      recipient.sid != sender.sid && recipient.rooms.contains room
  | .roomUserLeft room _ =>
      recipient.sid != sender.sid && recipient.rooms.contains room
  | .roomCardMoved room _ _ =>
      recipient.sid != sender.sid && recipient.rooms.contains room
  | .roomNewComment room _ _ =>
      recipient.sid != sender.sid && recipient.rooms.contains room
  | .roomUserTyping room _ _ _ =>
      recipient.sid != sender.sid && recipient.rooms.contains room
  | .selfError _ => recipient.sid == sender.sid

/-- Payload of the `card-moved` client event:
`{ cardId, fromListId, toListId, newPosition, boardId }`. -/
structure CardMovedData where
  cardId : Nat
  fromListId : Nat
  toListId : Nat
  newPosition : ℚ
  boardId : Nat
deriving DecidableEq, Repr

/-- Payload of the `new-comment` client event: `{ cardId, text, boardId }`. -/
structure NewCommentData where
  cardId : Nat
  text : String
  boardId : Nat
deriving DecidableEq, Repr

/-- Payload of the `user-typing` client event:
`{ boardId, cardId, isTyping }`. -/
structure UserTypingData where
  boardId : Nat
  cardId : Nat
  isTyping : Bool
deriving DecidableEq, Repr

/-- The `join-board` handler: `socket.join` (a no-op when already joined)
followed by an unconditional `user-joined` broadcast to the room. -/
def joinBoardHandler (c : Conn) (boardId : Nat) : Conn × List Emit :=
  let room := boardRoom boardId
  ({ c with rooms := if c.rooms.contains room then c.rooms else c.rooms ++ [room] },
   [Emit.roomUserJoined room c.user.uid])

/-- The `leave-board` handler: `socket.leave` (a no-op when not a member)
followed by an unconditional `user-left` broadcast to the room. -/
def leaveBoardHandler (c : Conn) (boardId : Nat) : Conn × List Emit :=
  let room := boardRoom boardId
  ({ c with rooms := c.rooms.erase room },
   [Emit.roomUserLeft room c.user.uid])

/-- The `disconnect` handler: the handler body only logs; the Socket.IO
runtime removes the socket from all its rooms.  No emission is produced. -/
def disconnectHandler (c : Conn) : Conn × List Emit :=
  ({ c with rooms := [] }, [])

/-- The `card-moved` handler.  In source order: `prisma.card.update` (the
`catch` turns a throw into an `error` emission to the originator), then the
`card-moved` broadcast to the room, then the two `list.findUnique` reads and
`activity.create`; a throw in that tail (a `null` list making
`fromList.title` fail, or a create failure) lands in the same `catch`, after
the broadcast has already gone out. -/
def cardMovedHandler (u : User) (d : CardMovedData) (s : Store) :
    Store × List Emit :=
  match cardUpdateMove s d.cardId d.toListId d.newPosition with
  | none => (s, [Emit.selfError "Failed to move card"])
  | some (s1, card) =>
    let bcast := Emit.roomCardMoved (boardRoom d.boardId) card u.uid
    match listFindUnique s1 d.fromListId, listFindUnique s1 d.toListId with
    | some fl, some tl =>
      match activityCreate s1 "card_moved" d.boardId u.uid
          ⟨card.title, fl.title, tl.title⟩ with
      | some s2 => (s2, [bcast])
      | none => (s1, [bcast, Emit.selfError "Failed to move card"])
    | some _, none => (s1, [bcast, Emit.selfError "Failed to move card"])
    | none, _ => (s1, [bcast, Emit.selfError "Failed to move card"])

/-- The `new-comment` handler: `prisma.comment.create` then the
`new-comment` broadcast; a create failure is caught and becomes an `error`
emission to the originator.  No validation of `text` and no Activity row. -/
def newCommentHandler (u : User) (d : NewCommentData) (s : Store) :
    Store × List Emit :=
  match commentCreate s d.cardId d.text u.uid with
  | some (s1, comment) =>
    (s1, [Emit.roomNewComment (boardRoom d.boardId) comment u.uid])
  | none => (s, [Emit.selfError "Failed to add comment"])

/-- The `user-typing` handler: a pure pass-through broadcast, no store
access. -/
def userTypingHandler (u : User) (d : UserTypingData) (s : Store) :
    Store × List Emit :=
  (s, [Emit.roomUserTyping (boardRoom d.boardId) u.uid d.cardId d.isTyping])

/-- A minimal HTTP response for the Express routes modelled here. -/
structure HttpResponse where
  status : Nat
  body : String
deriving DecidableEq, Repr

/-- The `DELETE /api/boards/:boardId` handler: four unconditional
`deleteMany` calls scoped only by `boardId` (cards, lists, board members,
activities), then `prisma.board.delete({ where: { id: boardId, ownerId:
userId } })`; the `catch` maps the `P2025` thrown when no row matches both
fields to a 404 response. -/
def deleteBoardHandler (userId boardId : Nat) (s : Store) :
    Store × HttpResponse :=
  let s1 := { s with cards := s.cards.filter (fun c => !(c.boardId == boardId)) }
  let s2 := { s1 with lists := s1.lists.filter (fun l => !(l.boardId == boardId)) }
  let s3 := { s2 with boardMembers :=
                s2.boardMembers.filter (fun m => !(m.boardId == boardId)) }
  let s4 := { s3 with activities :=
                s3.activities.filter (fun a => !(a.boardId == boardId)) }
  match s4.boards.find? (fun b => b.bid == boardId && b.ownerId == userId) with
  | some _ =>
    ({ s4 with boards :=
         s4.boards.filter (fun b => !(b.bid == boardId && b.ownerId == userId)) },
     ⟨200, "Board deleted successfully"⟩)
  | none => (s4, ⟨404, "Board not found or you are not the owner"⟩)

/-- Modelled from the spec: the Position Allocator is client-side code not
present in this repository snapshot (the LLD only records that the client
chooses `(a.position + b.position) / 2` when inserting between two
siblings).  Following the specification text: the midpoint between two
bounds, `b - 1` at the head with no lower bound, `a + 1` at the tail with no
upper bound, and the fixed baseline `1` for an empty list. -/
def allocate : Option ℚ → Option ℚ → ℚ
  | some a, some b => (a + b) / 2
  | none, some b => b - 1
  | some a, none => a + 1
  | none, none => 1

/-- A concrete store used in counterexamples and witnesses: board 1 is owned
by user 5 with no listed members; lists 10 ("Backlog"), 20 ("Done") and
30 ("Bogus") belong to board 1; card 100 ("Task") sits in list 10. -/
def exStore : Store :=
  { users := [5, 6, 7]
    boards := [⟨1, 5⟩]
    boardMembers := []
    lists := [⟨10, 1, "Backlog"⟩, ⟨20, 1, "Done"⟩, ⟨30, 1, "Bogus"⟩]
    cards := [⟨100, 10, 1, 1, "Task"⟩]
    comments := []
    activities := []
    nextId := 500 }

/-- A store with no rows at all. -/
def emptyStore : Store := ⟨[], [], [], [], [], [], [], 0⟩

/-- A connection for user 7 attached to no room. -/
def connA : Conn := ⟨1, ⟨7⟩, []⟩

/-- A connection for user 6 attached to the room of board 42. -/
def connB : Conn := ⟨2, ⟨6⟩, ["board:42"]⟩

/-- A connection for user 8 attached to the rooms of boards 42 and 7. -/
def connC : Conn := ⟨3, ⟨8⟩, ["board:42", "board:7"]⟩

/-- A connection for user 5 (the owner of board 1) attached to board 1. -/
def connO : Conn := ⟨9, ⟨5⟩, ["board:1"]⟩

/-- A `card-moved` payload moving card 100 from list 10 to list 20 of
board 1 with position 2. -/
def moveC : CardMovedData := ⟨100, 10, 20, 2, 1⟩

/-- A `card-moved` payload whose `fromListId` (30, "Bogus") differs from
the card's actual pre-move list (10, "Backlog"). -/
def moveBogusFrom : CardMovedData := ⟨100, 30, 20, 2, 1⟩

/-- A `card-moved` payload whose `fromListId` (999) is no list at all. -/
def moveMissingFrom : CardMovedData := ⟨100, 999, 20, 2, 1⟩

/-- A `new-comment` payload with non-empty text for card 100 of board 1. -/
def commentC : NewCommentData := ⟨100, "looks good", 1⟩

/-- A `new-comment` payload whose text is empty. -/
def emptyCommentC : NewCommentData := ⟨100, "", 1⟩

/-- True when a string is empty after trimming, i.e. contains nothing but
whitespace (`t.trim = ""` exactly when every character of `t` is
whitespace). -/
def isBlank (t : String) : Bool :=
  t.data.all (fun ch => ch.isWhitespace)

/-- Unfolding lemma: a successful `prisma.card.update` on a card found in
the store replaces its `listId` and `position` and returns the updated
row. -/
theorem cardUpdateMove_of_find (s : Store) (cardId toListId : Nat) (np : ℚ)
    (c : Card) (h : s.cards.find? (fun x => x.cid == cardId) = some c) :
    cardUpdateMove s cardId toListId np =
      some ({ s with cards := s.cards.map (fun x =>
          if x.cid == cardId then
            { c with listId := toListId, position := np } else x) },
        { c with listId := toListId, position := np }) := by
  simp only [cardUpdateMove, h]

/-- Unfolding lemma: a successful `prisma.comment.create` appends the new
row and returns it. -/
theorem commentCreate_of_fk (s : Store) (cardId : Nat) (text : String)
    (authorId : Nat)
    (h : (s.cards.any (fun x => x.cid == cardId)
        && s.users.contains authorId) = true) :
    commentCreate s cardId text authorId =
      some ({ s with
          comments := s.comments ++ [⟨s.nextId, cardId, authorId, text⟩],
          nextId := s.nextId + 1 },
        ⟨s.nextId, cardId, authorId, text⟩) := by
  simp only [commentCreate, h, if_true]

/-- Unfolding lemma: the fully successful `card-moved` path — update
applied, both list lookups resolved, activity row appended — in terms of
the initial store. -/
theorem cardMovedHandler_success_eq (u : User) (d : CardMovedData)
    (s : Store) (c : Card) (fl tl : BoardList)
    (hc : s.cards.find? (fun x => x.cid == d.cardId) = some c)
    (hfl : listFindUnique s d.fromListId = some fl)
    (htl : listFindUnique s d.toListId = some tl)
    (hok : (s.boards.any (fun b => b.bid == d.boardId)
        && s.users.contains u.uid) = true) :
    cardMovedHandler u d s =
      ({ s with
          cards := s.cards.map (fun x =>
            if x.cid == d.cardId then
              { c with listId := d.toListId, position := d.newPosition } else x),
          activities := s.activities ++
            [⟨s.nextId, "card_moved", d.boardId, u.uid,
              ⟨c.title, fl.title, tl.title⟩⟩],
          nextId := s.nextId + 1 },
       [Emit.roomCardMoved (boardRoom d.boardId)
          { c with listId := d.toListId, position := d.newPosition } u.uid]) := by
  simp only [cardMovedHandler, cardUpdateMove_of_find s d.cardId d.toListId
    d.newPosition c hc]
  have hfl2 : listFindUnique { s with cards := s.cards.map (fun x =>
      if x.cid == d.cardId then
        { c with listId := d.toListId, position := d.newPosition } else x) }
      d.fromListId = some fl := hfl
  have htl2 : listFindUnique { s with cards := s.cards.map (fun x =>
      if x.cid == d.cardId then
        { c with listId := d.toListId, position := d.newPosition } else x) }
      d.toListId = some tl := htl
  simp only [hfl2, htl2, activityCreate, hok, if_true]

/-- Unfolding lemma: the `card-moved` path in which the update succeeds but
the activity tail fails (a list lookup coming back `null` or the
`activity.create` itself failing): the write stands, the broadcast has
already gone out, and the `catch` adds an `error` emission. -/
theorem cardMovedHandler_activityFail_eq (u : User) (d : CardMovedData)
    (s : Store) (c : Card)
    (hc : s.cards.find? (fun x => x.cid == d.cardId) = some c)
    (hfail : listFindUnique s d.fromListId = none ∨
      listFindUnique s d.toListId = none ∨
      (s.boards.any (fun b => b.bid == d.boardId)
        && s.users.contains u.uid) = false) :
    cardMovedHandler u d s =
      ({ s with cards := s.cards.map (fun x =>
          if x.cid == d.cardId then
            { c with listId := d.toListId, position := d.newPosition } else x) },
       [Emit.roomCardMoved (boardRoom d.boardId)
          { c with listId := d.toListId, position := d.newPosition } u.uid,
        Emit.selfError "Failed to move card"]) := by
  simp only [cardMovedHandler, cardUpdateMove_of_find s d.cardId d.toListId
    d.newPosition c hc]
  simp only [listFindUnique] at hfail ⊢
  rcases h1 : s.lists.find? (fun l => l.lid == d.fromListId) with _ | fl
  · simp only [h1]
  · rcases h2 : s.lists.find? (fun l => l.lid == d.toListId) with _ | tl
    · simp only [h1, h2]
    · rcases hfail with hf | hf | hf
      · rw [h1] at hf; cases hf
      · rw [h2] at hf; cases hf
      · simp only [h1, h2, activityCreate, hf, Bool.false_eq_true, if_false]

/-- Unfolding lemma: the successful `new-comment` path appends the comment
row and broadcasts it to the room. -/
theorem newCommentHandler_success_eq (u : User) (d : NewCommentData)
    (s : Store)
    (h : (s.cards.any (fun x => x.cid == d.cardId)
        && s.users.contains u.uid) = true) :
    newCommentHandler u d s =
      ({ s with
          comments := s.comments ++ [⟨s.nextId, d.cardId, u.uid, d.text⟩],
          nextId := s.nextId + 1 },
       [Emit.roomNewComment (boardRoom d.boardId)
          ⟨s.nextId, d.cardId, u.uid, d.text⟩ u.uid]) := by
  simp only [newCommentHandler, commentCreate_of_fk s d.cardId d.text u.uid h]

/-- C1: counterexample.  User 7 is neither the owner of board 1 (user 5
is) nor a listed board member (there are none), yet their `card-moved`
mutation is not rejected: no error emission is produced and the card row
is updated in the store — there is no `Forbidden` membership check in the
socket handlers. -/
theorem cardMoved_nonmember_not_forbidden :
    (exStore.boards.all (fun b => !(b.ownerId == 7))) = true ∧
    exStore.boardMembers = [] ∧
    ((cardMovedHandler ⟨7⟩ moveC exStore).2.all (fun e => !e.isError)) = true ∧
    (cardMovedHandler ⟨7⟩ moveC exStore).1.cards = [⟨100, 20, 1, 2, "Task"⟩] := by
  decide

/-- C1 (amended): the socket handlers perform no board-membership check at
all.  For every acting user — member or not — a `card-moved` whose card
exists is applied and broadcast, a `new-comment` whose referential checks
pass is written and broadcast, and a `user-typing` is always broadcast;
no `Forbidden` rejection exists on any of the three paths. -/
theorem socket_mutations_no_membership_check :
    (∀ (u : User) (d : CardMovedData) (s : Store) (c : Card),
      s.cards.find? (fun x => x.cid == d.cardId) = some c →
      (cardMovedHandler u d s).2.head? =
        some (Emit.roomCardMoved (boardRoom d.boardId)
          { c with listId := d.toListId, position := d.newPosition } u.uid)) ∧
    (∀ (u : User) (d : NewCommentData) (s : Store),
      (s.cards.any (fun x => x.cid == d.cardId)
        && s.users.contains u.uid) = true →
      newCommentHandler u d s =
        ({ s with
            comments := s.comments ++ [⟨s.nextId, d.cardId, u.uid, d.text⟩],
            nextId := s.nextId + 1 },
         [Emit.roomNewComment (boardRoom d.boardId)
            ⟨s.nextId, d.cardId, u.uid, d.text⟩ u.uid])) ∧
    (∀ (u : User) (d : UserTypingData) (s : Store),
      userTypingHandler u d s =
        (s, [Emit.roomUserTyping (boardRoom d.boardId) u.uid d.cardId
          d.isTyping])) := by
  refine ⟨fun u d s c hc => ?_, fun u d s h => newCommentHandler_success_eq u d s h,
    fun u d s => rfl⟩
  simp only [cardMovedHandler, cardUpdateMove_of_find s d.cardId d.toListId
    d.newPosition c hc]
  simp only [listFindUnique]
  rcases h1 : s.lists.find? (fun l => l.lid == d.fromListId) with _ | fl
  · simp only [h1]; rfl
  · rcases h2 : s.lists.find? (fun l => l.lid == d.toListId) with _ | tl
    · simp only [h1, h2]; rfl
    · simp only [h1, h2]
      rcases h3 : activityCreate { s with cards := s.cards.map (fun x =>
          if x.cid == d.cardId then
            { c with listId := d.toListId, position := d.newPosition } else x) }
          "card_moved" d.boardId u.uid ⟨c.title, fl.title, tl.title⟩ with _ | s2 <;>
        simp only [h3] <;> rfl

/-- C1 witness: the amended theorem's `card-moved` part evaluated for
non-member user 7 on the example store. -/
theorem socket_mutations_no_membership_check_witness :
    exStore.cards.find? (fun x => x.cid == moveC.cardId)
      = some ⟨100, 10, 1, 1, "Task"⟩ ∧
    (cardMovedHandler ⟨7⟩ moveC exStore).2.head? =
      some (Emit.roomCardMoved (boardRoom moveC.boardId)
        { (⟨100, 10, 1, 1, "Task"⟩ : Card) with
            listId := moveC.toListId, position := moveC.newPosition }
        (User.mk 7).uid) :=
  ⟨by decide, socket_mutations_no_membership_check.1 ⟨7⟩ moveC exStore
    ⟨100, 10, 1, 1, "Task"⟩ (by decide)⟩

/-- C2: a mutation whose apply step fails leaves the store untouched
(no card write, no comment write, no activity row), produces no broadcast,
and emits exactly one `error` event, which is delivered only to the
originating connection. -/
theorem failed_mutation_no_effects :
    (∀ (u : User) (d : CardMovedData) (s : Store),
      s.cards.find? (fun x => x.cid == d.cardId) = none →
      cardMovedHandler u d s = (s, [Emit.selfError "Failed to move card"])) ∧
    (∀ (u : User) (d : NewCommentData) (s : Store),
      (s.cards.any (fun x => x.cid == d.cardId)
        && s.users.contains u.uid) = false →
      newCommentHandler u d s = (s, [Emit.selfError "Failed to add comment"])) ∧
    (∀ (sender recipient : Conn) (m : String),
      ¬ recipient.sid = sender.sid →
      deliveredTo sender recipient (Emit.selfError m) = false) := by
  refine ⟨fun u d s h => ?_, fun u d s h => ?_, fun sender recipient m h => ?_⟩
  · simp only [cardMovedHandler, cardUpdateMove, h]
  · simp only [newCommentHandler, commentCreate, h, Bool.false_eq_true, if_false]
  · simp only [deliveredTo, beq_eq_false_iff_ne, ne_eq, h, not_false_eq_true]

/-- C2 witness: `card-moved` against the empty store (the card does not
exist, so `prisma.card.update` throws `P2025`): the store is unchanged and
only the error emission is produced. -/
theorem failed_mutation_no_effects_witness :
    emptyStore.cards.find? (fun x => x.cid == moveC.cardId) = none ∧
    cardMovedHandler ⟨7⟩ moveC emptyStore =
      (emptyStore, [Emit.selfError "Failed to move card"]) :=
  ⟨by decide, failed_mutation_no_effects.1 ⟨7⟩ moveC emptyStore (by decide)⟩

/-- C3: counterexample.  An accepted `new-comment` mutation (comment
written and broadcast, no error) appends zero Activity rows: the
`new-comment` handler never calls `activity.create`, contrary to the claim
that every accepted mutation except `TypingSignal` appends one. -/
theorem newComment_appends_no_activity :
    ((newCommentHandler ⟨5⟩ commentC exStore).2.all (fun e => !e.isError)) = true ∧
    (newCommentHandler ⟨5⟩ commentC exStore).1.comments =
      [⟨500, 100, 5, "looks good"⟩] ∧
    (newCommentHandler ⟨5⟩ commentC exStore).1.activities = [] := by
  decide

/-- C3 (amended): an accepted `card-moved` whose best-effort activity tail
succeeds appends exactly one Activity row, of type `card_moved` and with
data derived from the payload; accepted `new-comment` mutations append no
Activity row, and `user-typing` touches the store not at all. -/
theorem activity_rows_by_mutation_type :
    (∀ (u : User) (d : CardMovedData) (s : Store) (c : Card) (fl tl : BoardList),
      s.cards.find? (fun x => x.cid == d.cardId) = some c →
      listFindUnique s d.fromListId = some fl →
      listFindUnique s d.toListId = some tl →
      (s.boards.any (fun b => b.bid == d.boardId)
        && s.users.contains u.uid) = true →
      (cardMovedHandler u d s).1.activities =
        s.activities ++ [⟨s.nextId, "card_moved", d.boardId, u.uid,
          ⟨c.title, fl.title, tl.title⟩⟩]) ∧
    (∀ (u : User) (d : NewCommentData) (s : Store),
      (newCommentHandler u d s).1.activities = s.activities) ∧
    (∀ (u : User) (d : UserTypingData) (s : Store),
      (userTypingHandler u d s).1 = s) := by
  refine ⟨fun u d s c fl tl hc hfl htl hok => ?_, fun u d s => ?_, fun u d s => rfl⟩
  · rw [cardMovedHandler_success_eq u d s c fl tl hc hfl htl hok]
  · rcases h : (s.cards.any (fun x => x.cid == d.cardId)
        && s.users.contains u.uid) with _ | _
    · simp only [newCommentHandler, commentCreate, h, Bool.false_eq_true, if_false]
    · rw [newCommentHandler_success_eq u d s h]

/-- C3 witness: the amended theorem's `card-moved` part evaluated for the
owner, user 5, moving card 100 from list 10 to list 20. -/
theorem activity_rows_by_mutation_type_witness :
    exStore.cards.find? (fun x => x.cid == moveC.cardId)
      = some ⟨100, 10, 1, 1, "Task"⟩ ∧
    listFindUnique exStore moveC.fromListId = some ⟨10, 1, "Backlog"⟩ ∧
    listFindUnique exStore moveC.toListId = some ⟨20, 1, "Done"⟩ ∧
    (exStore.boards.any (fun b => b.bid == moveC.boardId)
      && exStore.users.contains (User.mk 5).uid) = true ∧
    (cardMovedHandler ⟨5⟩ moveC exStore).1.activities =
      exStore.activities ++ [⟨exStore.nextId, "card_moved", moveC.boardId,
        (User.mk 5).uid, ⟨"Task", "Backlog", "Done"⟩⟩] :=
  ⟨by decide, by decide, by decide, by decide,
    activity_rows_by_mutation_type.1 ⟨5⟩ moveC exStore ⟨100, 10, 1, 1, "Task"⟩
      ⟨10, 1, "Backlog"⟩ ⟨20, 1, "Done"⟩ (by decide) (by decide) (by decide)
      (by decide)⟩

/-- C4: counterexample.  Card 100 sits in list 10 ("Backlog"), but the
client-supplied `fromListId` is 30 ("Bogus"): the handler records
"Bogus" as the activity's from-side — the from-list is taken from the
client payload, not read from the card's pre-move state. -/
theorem cardMoved_fromList_from_payload :
    (exStore.cards.map (fun c => c.listId)) = [10] ∧
    (listFindUnique exStore 10).map (fun l => l.title) = some "Backlog" ∧
    moveBogusFrom.fromListId = 30 ∧
    ((cardMovedHandler ⟨5⟩ moveBogusFrom exStore).1.activities.map
      (fun a => a.data.fromList)) = ["Bogus"] := by
  decide

/-- C4 (amended): the handler requires the client to supply `fromListId`
and derives the activity's from-side from that payload field (looked up
after the update); the card's pre-move list is never read, so the recorded
from-list is the title of the payload's `fromListId` whatever list the
card was actually in. -/
theorem cardMoved_activity_uses_payload_fromList :
    ∀ (u : User) (d : CardMovedData) (s : Store) (c : Card) (fl tl : BoardList),
      s.cards.find? (fun x => x.cid == d.cardId) = some c →
      listFindUnique s d.fromListId = some fl →
      listFindUnique s d.toListId = some tl →
      (s.boards.any (fun b => b.bid == d.boardId)
        && s.users.contains u.uid) = true →
      ((cardMovedHandler u d s).1.activities.map (fun a => a.data.fromList)) =
        (s.activities.map (fun a => a.data.fromList)) ++ [fl.title] := by
  intro u d s c fl tl hc hfl htl hok
  rw [cardMovedHandler_success_eq u d s c fl tl hc hfl htl hok]
  simp

/-- C4 witness: the amended theorem evaluated on the payload whose
`fromListId` is the bogus list 30 — the recorded from-side is "Bogus". -/
theorem cardMoved_activity_uses_payload_fromList_witness :
    exStore.cards.find? (fun x => x.cid == moveBogusFrom.cardId)
      = some ⟨100, 10, 1, 1, "Task"⟩ ∧
    listFindUnique exStore moveBogusFrom.fromListId = some ⟨30, 1, "Bogus"⟩ ∧
    listFindUnique exStore moveBogusFrom.toListId = some ⟨20, 1, "Done"⟩ ∧
    ((cardMovedHandler ⟨5⟩ moveBogusFrom exStore).1.activities.map
      (fun a => a.data.fromList)) =
      (exStore.activities.map (fun a => a.data.fromList)) ++ ["Bogus"] :=
  ⟨by decide, by decide, by decide,
    cardMoved_activity_uses_payload_fromList ⟨5⟩ moveBogusFrom exStore
      ⟨100, 10, 1, 1, "Task"⟩ ⟨30, 1, "Bogus"⟩ ⟨20, 1, "Done"⟩ (by decide)
      (by decide) (by decide) (by decide)⟩

/-- C5: counterexample.  A `new-comment` whose text is empty (hence empty
after trimming) is not rejected: the comment row is written with the empty
text and broadcast, and no error — in particular no `ValidationError` — is
delivered. -/
theorem emptyComment_accepted :
    isBlank emptyCommentC.text = true ∧
    newCommentHandler ⟨5⟩ emptyCommentC exStore =
      ({ exStore with comments := [⟨500, 100, 5, ""⟩], nextId := 501 },
       [Emit.roomNewComment (boardRoom 1) ⟨500, 100, 5, ""⟩ 5]) := by
  decide

/-- C5 (amended): the `new-comment` handler performs no emptiness (or any
other) validation of `text`: a comment whose text is empty after trimming
is accepted exactly like any other — written verbatim to the store and
broadcast, with no error to the originator. -/
theorem emptyComment_no_validation (u : User) (d : NewCommentData) (s : Store)
    (htrim : isBlank d.text = true)
    (hok : (s.cards.any (fun x => x.cid == d.cardId)
      && s.users.contains u.uid) = true) :
    newCommentHandler u d s =
      ({ s with
          comments := s.comments ++ [⟨s.nextId, d.cardId, u.uid, d.text⟩],
          nextId := s.nextId + 1 },
       [Emit.roomNewComment (boardRoom d.boardId)
          ⟨s.nextId, d.cardId, u.uid, d.text⟩ u.uid]) :=
  newCommentHandler_success_eq u d s hok

/-- C5 witness: the amended theorem evaluated on the empty-text payload
against the example store. -/
theorem emptyComment_no_validation_witness :
    isBlank emptyCommentC.text = true ∧
    newCommentHandler ⟨5⟩ emptyCommentC exStore =
      ({ exStore with
          comments := exStore.comments ++ [⟨exStore.nextId, emptyCommentC.cardId,
            (User.mk 5).uid, emptyCommentC.text⟩],
          nextId := exStore.nextId + 1 },
       [Emit.roomNewComment (boardRoom emptyCommentC.boardId)
          ⟨exStore.nextId, emptyCommentC.cardId, (User.mk 5).uid,
            emptyCommentC.text⟩ (User.mk 5).uid]) :=
  ⟨by decide, emptyComment_no_validation ⟨5⟩ emptyCommentC exStore (by decide)
    (by decide)⟩

/-- C6: counterexample.  `fromListId` 999 names no list, so the activity
tail fails after the write and broadcast: the write stands and the
broadcast was sent (that much matches the claim), but an `error` event is
also emitted and delivered to the originating connection — the
activity-recording failure IS surfaced to the originator. -/
theorem activityFailure_error_surfaced :
    listFindUnique exStore 999 = none ∧
    cardMovedHandler ⟨5⟩ moveMissingFrom exStore =
      ({ exStore with cards := [⟨100, 20, 1, 2, "Task"⟩] },
       [Emit.roomCardMoved (boardRoom 1) ⟨100, 20, 1, 2, "Task"⟩ 5,
        Emit.selfError "Failed to move card"]) ∧
    deliveredTo connO connO (Emit.selfError "Failed to move card") = true := by
  decide

/-- C6 (amended): when the activity tail of an accepted `card-moved` fails
(a list lookup coming back `null`, or `activity.create` itself failing),
the applied write and the already-sent broadcast are not rolled back and
no activity row is appended — but the shared `catch` additionally emits an
`error` event to the originating connection, so the failure is surfaced to
the originator (never to the room). -/
theorem activityFailure_keeps_write_emits_error (u : User) (d : CardMovedData)
    (s : Store) (c : Card)
    (hc : s.cards.find? (fun x => x.cid == d.cardId) = some c)
    (hfail : listFindUnique s d.fromListId = none ∨
      listFindUnique s d.toListId = none ∨
      (s.boards.any (fun b => b.bid == d.boardId)
        && s.users.contains u.uid) = false) :
    cardMovedHandler u d s =
      ({ s with cards := s.cards.map (fun x =>
          if x.cid == d.cardId then
            { c with listId := d.toListId, position := d.newPosition } else x) },
       [Emit.roomCardMoved (boardRoom d.boardId)
          { c with listId := d.toListId, position := d.newPosition } u.uid,
        Emit.selfError "Failed to move card"]) :=
  cardMovedHandler_activityFail_eq u d s c hc hfail

/-- C6 witness: the amended theorem evaluated on the payload whose
`fromListId` is the missing list 999. -/
theorem activityFailure_keeps_write_emits_error_witness :
    listFindUnique exStore moveMissingFrom.fromListId = none ∧
    cardMovedHandler ⟨5⟩ moveMissingFrom exStore =
      ({ exStore with cards := exStore.cards.map (fun x =>
          if x.cid == moveMissingFrom.cardId then
            { (⟨100, 10, 1, 1, "Task"⟩ : Card) with
                listId := moveMissingFrom.toListId,
                position := moveMissingFrom.newPosition } else x) },
       [Emit.roomCardMoved (boardRoom moveMissingFrom.boardId)
          { (⟨100, 10, 1, 1, "Task"⟩ : Card) with
              listId := moveMissingFrom.toListId,
              position := moveMissingFrom.newPosition } (User.mk 5).uid,
        Emit.selfError "Failed to move card"]) :=
  ⟨by decide, activityFailure_keeps_write_emits_error ⟨5⟩ moveMissingFrom exStore
    ⟨100, 10, 1, 1, "Task"⟩ (by decide) (Or.inl (by decide))⟩

/-- C7: counterexample.  `leave-board` for a board the connection is not
attached to produces no error, but it still broadcasts `user-left` to the
room — and a second identical request broadcasts it again, so connection B
(a member of the room) receives duplicate `user-left` events, contrary to
the claim that no duplicate broadcast is produced. -/
theorem leaveBoard_not_attached_still_broadcasts :
    connA.rooms.contains (boardRoom 42) = false ∧
    leaveBoardHandler connA 42 = (connA, [Emit.roomUserLeft "board:42" 7]) ∧
    leaveBoardHandler (leaveBoardHandler connA 42).1 42 =
      (connA, [Emit.roomUserLeft "board:42" 7]) ∧
    deliveredTo connA connB (Emit.roomUserLeft "board:42" 7) = true := by
  decide

/-- C7 (amended): `leave-board` never produces an error and the
room-membership update is idempotent (a connection not attached to the room
is left unchanged), but the `user-left` broadcast is emitted
unconditionally on every `leave-board`, so repeated requests produce
duplicate `user-left` broadcasts; the `disconnect` path emits nothing, so
repeated disconnects produce no duplicate `user-left`. -/
theorem leaveBoard_unconditional_broadcast (c : Conn) (bid : Nat)
    (h : boardRoom bid ∉ c.rooms) :
    (leaveBoardHandler c bid).2 = [Emit.roomUserLeft (boardRoom bid) c.user.uid] ∧
    ((leaveBoardHandler c bid).2.all (fun e => !e.isError)) = true ∧
    (leaveBoardHandler c bid).1 = c ∧
    (disconnectHandler (disconnectHandler c).1).2 = [] := by
  refine ⟨rfl, by simp [leaveBoardHandler, Emit.isError], ?_, rfl⟩
  simp [leaveBoardHandler, List.erase_of_not_mem h]

/-- C7 witness: the amended theorem applied to connection A, which is not
attached to the room of board 42. -/
theorem leaveBoard_unconditional_broadcast_witness :
    boardRoom 42 ∉ connA.rooms ∧
    ((leaveBoardHandler connA 42).2 =
        [Emit.roomUserLeft (boardRoom 42) connA.user.uid] ∧
      ((leaveBoardHandler connA 42).2.all (fun e => !e.isError)) = true ∧
      (leaveBoardHandler connA 42).1 = connA ∧
      (disconnectHandler (disconnectHandler connA).1).2 = []) :=
  ⟨by decide, leaveBoard_unconditional_broadcast connA 42 (by decide)⟩

/-- C8: counterexample.  Connection C is attached to two rooms, yet the
`disconnect` path produces zero emissions — no `user-left` event reaches the
remaining members of either room (the handler body only logs; the claim
says `PresenceLeave` is emitted to each room). -/
theorem disconnect_no_userLeft_counterexample :
    connC.rooms = ["board:42", "board:7"] ∧
    disconnectHandler connC = ({ connC with rooms := [] }, []) ∧
    ((disconnectHandler connC).2.countP (fun e => e.isUserLeft)) = 0 := by
  decide

/-- C8 (amended): when a connection terminates, it is detached from every
room it was a member of, but no `user-left` event is emitted to anyone —
the disconnect handler only logs and the room cleanup is silent. -/
theorem disconnect_detaches_silently (c : Conn) :
    disconnectHandler c = ({ c with rooms := [] }, []) := rfl

/-- C9: the position allocator (modelled from the spec, see `allocate`)
returns a value strictly between its bounds when both are supplied, a value
strictly below the upper bound with no lower bound, a value strictly above
the lower bound with no upper bound, and the fixed baseline 1 on an empty
list. -/
theorem allocate_respects_bounds :
    (∀ a b : ℚ, a < b →
      a < allocate (some a) (some b) ∧ allocate (some a) (some b) < b) ∧
    (∀ b : ℚ, allocate none (some b) < b) ∧
    (∀ a : ℚ, a < allocate (some a) none) ∧
    allocate none none = 1 := by
  refine ⟨fun a b h => ?_, fun b => ?_, fun a => ?_, rfl⟩
  · constructor <;> simp only [allocate] <;> linarith
  · simp only [allocate]; linarith
  · simp only [allocate]; linarith

/-- C9 witness: the bounds property evaluated at the pair 0 < 2. -/
theorem allocate_respects_bounds_witness :
    (0 : ℚ) < 2 ∧
    ((0 : ℚ) < allocate (some 0) (some 2) ∧ allocate (some 0) (some 2) < 2) :=
  ⟨zero_lt_two, allocate_respects_bounds.1 0 2 zero_lt_two⟩

/-- C10: a DELETE-board request by an authenticated user who does not own
the board still deletes every card, list, board membership and activity row
of the board (the four `deleteMany` calls are scoped only by `boardId`);
the owner-scoped `board.delete` then throws `P2025`, the handler responds
404, and the board row itself remains. -/
theorem deleteBoard_nonowner_cascades_then_404 (userId boardId : Nat)
    (s : Store)
    (h : ∀ b ∈ s.boards, b.bid = boardId → ¬ b.ownerId = userId) :
    deleteBoardHandler userId boardId s =
      ({ s with
          cards := s.cards.filter (fun c => !(c.boardId == boardId)),
          lists := s.lists.filter (fun l => !(l.boardId == boardId)),
          boardMembers := s.boardMembers.filter (fun m => !(m.boardId == boardId)),
          activities := s.activities.filter (fun a => !(a.boardId == boardId)) },
       ⟨404, "Board not found or you are not the owner"⟩) ∧
    (deleteBoardHandler userId boardId s).1.boards = s.boards := by
  have hfind : s.boards.find? (fun b => b.bid == boardId && b.ownerId == userId)
      = none := by
    rw [List.find?_eq_none]
    intro b hb
    simp only [Bool.and_eq_true, beq_iff_eq, not_and]
    exact h b hb
  refine ⟨?_, ?_⟩ <;> simp only [deleteBoardHandler, hfind]

/-- C10 witness: user 7 does not own board 1 in the example store, yet the
cascade empties the board's cards, lists, memberships and activities while
the board row survives and the response is 404. -/
theorem deleteBoard_nonowner_cascades_then_404_witness :
    (∀ b ∈ exStore.boards, b.bid = 1 → ¬ b.ownerId = 7) ∧
    (deleteBoardHandler 7 1 exStore =
      ({ exStore with
          cards := exStore.cards.filter (fun c => !(c.boardId == 1)),
          lists := exStore.lists.filter (fun l => !(l.boardId == 1)),
          boardMembers := exStore.boardMembers.filter (fun m => !(m.boardId == 1)),
          activities := exStore.activities.filter (fun a => !(a.boardId == 1)) },
       ⟨404, "Board not found or you are not the owner"⟩) ∧
    (deleteBoardHandler 7 1 exStore).1.boards = exStore.boards) :=
  ⟨by decide, deleteBoard_nonowner_cascades_then_404 7 1 exStore (by decide)⟩

end MiniTrello
